import Mathlib

/-!
# Verification of the marbl-diags core against its specification

Shallow embedding of the configuration resolution, data-source opening,
cache-key construction and monthly-climatology computation of the
marbl-diags repository, together with theorems settling the frozen claims
about its natural-language specification.

Conventions of the embedding:
* Python dictionaries are association lists (`List (String × _)`) looked up
  with `List.lookup`, which returns the first binding, matching the
  single-binding discipline of a Python `dict`.
* Numeric array data is `ℚ` (the datasets the claims exercise hold small
  integers and halves, which `ℚ` represents exactly).
* Fallible Python code (statements that may `raise`) is embedded in
  `Except`; where a claim is about the state of an object at the moment an
  exception is raised, the error payload carries that state.
-/

namespace MarblDiags

/-! ## Calendar decoding (`cftime.num2date`, `noleap` calendar)

`compute_mon_climatology` converts the numeric midpoints of the time-bounds
variable into calendar dates with `cftime.num2date`.  The datasets in scope
declare `units = "days since 0001-01-01 00:00:00"` and `calendar = "noleap"`
(a fixed 365-day year); this branch of `cftime` is embedded here. -/

/-- Cumulative day count at the start of each month (January first) in the
fixed 365-day `noleap` calendar. -/
def noleapMonthStarts : List Nat := [0, 31, 59, 90, 120, 151, 181, 212, 243, 273, 304, 334]

/-- Month (1–12) containing a day-of-year `d ∈ [0, 365)`: the number of
month-start offsets that are `≤ d`. -/
def monthOfDayOfYear (d : ℚ) : Nat :=
  ((List.range 12).filter (fun m => ((noleapMonthStarts.getD m 0 : Nat) : ℚ) ≤ d)).length

/-- A decoded calendar date (the fields of a `cftime` datetime that the
climatology computation reads). -/
structure CalDate where
  year : Int
  month : Nat
  day : Int
deriving DecidableEq

/-- `cftime.num2date` for `units = "days since 0001-01-01 00:00:00"` and
`calendar = "noleap"`: day count `q` since year-1 January 1. -/
def num2dateNoleap (q : ℚ) : CalDate :=
  let y0 : Int := Rat.floor (q / 365)
  let doy : ℚ := q - 365 * (y0 : ℚ)
  let m := monthOfDayOfYear doy
  { year := 1 + y0
    month := m
    day := Rat.floor doy - (noleapMonthStarts.getD (m - 1) 0 : Int) + 1 }

/-! ## Datasets

An `xarray.Dataset` as `compute_mon_climatology` sees it: a `time`
coordinate with its attribute dictionary, the 2-dimensional `(time, d2)`
bounds-like variables, the time-varying data variables (spatial dimensions
of the datasets in scope have size one and are collapsed), and the
time-invariant grid variables. -/

/-- A value of the `time` coordinate: raw numbers as stored on file, or the
decoded dates that `compute_mon_climatology` writes over them in place. -/
inductive TimeVal where
  | num (q : ℚ)
  | date (d : CalDate)
deriving DecidableEq

structure DataSet where
  time : List TimeVal
  timeAttrs : List (String × String)
  boundVars : List (String × List (ℚ × ℚ))
  dataVars : List (String × List ℚ)
  gridVars : List (String × List ℚ)
deriving DecidableEq

/-- `GenericCollection._time_bound_var` (src/generic_classes.py): the name of
the time-bounds companion — the `bounds` attribute of `time` if present, else
the conventional name `time_bound` if such a variable exists, else an error. -/
def timeBoundVarName (ds : DataSet) : Except String String :=
  match List.lookup "bounds" ds.timeAttrs with
  | some nm => .ok nm
  | none =>
    if (List.lookup "time_bound" ds.boundVars).isSome then .ok "time_bound"
    else .error "No time_bound variable found"

/-- Mean of a list of rationals (an exact `xarray` `.mean`). -/
def meanList (l : List ℚ) : ℚ := l.sum / (l.length : ℚ)

/-- The time units string the embedded `cftime` branch supports. -/
def supportedUnits : String := "days since 0001-01-01 00:00:00"

/-- The sorted distinct months occurring in `months`
(`groupby` group keys are sorted ascending). -/
def distinctMonths (months : List Nat) : List Nat :=
  (List.range 13).filter (fun m => months.contains m)

/-- `groupby('time.month').mean('time')` for one time-varying variable:
one group mean per distinct month, months ascending. -/
def groupMonthMean (months : List Nat) (vals : List ℚ) : List ℚ :=
  (distinctMonths months).map (fun m =>
    meanList ((months.zip vals).filterMap (fun p => if p.1 = m then some p.2 else none)))

/-- The same grouping for a `(time, d2)`-shaped variable, componentwise. -/
def groupMonthMeanPair (months : List Nat) (vals : List (ℚ × ℚ)) : List (ℚ × ℚ) :=
  (distinctMonths months).map (fun m =>
    let sel := (months.zip vals).filterMap (fun p => if p.1 = m then some p.2 else none)
    (meanList (sel.map Prod.fst), meanList (sel.map Prod.snd)))

/-- The message of the divisibility error raised by `compute_mon_climatology`. -/
def divErrMsg : String := "Time axis not evenly divisible by 12!"

/-- Midpoints of the time-bounds variable: `ds[tb_name].mean(tb_dim)`. -/
def boundMidpoints (tb : List (ℚ × ℚ)) : List ℚ :=
  tb.map (fun p => (p.1 + p.2) / 2)

/-- `GenericCollection.compute_mon_climatology` (src/generic_classes.py).

Order of effects, as in the source: resolve the bounds variable, decode the
bound midpoints into calendar dates, overwrite `ds.time` in place with those
dates, and only then test divisibility of the date count by 12.  On error the
payload carries the state of `self.ds` at the moment the exception is raised.
On success: time-varying variables (the bounds variable included) are grouped
by calendar month and averaged, grid variables are reattached unchanged, the
month axis becomes the new `time` with its own attribute set. -/
def computeMonClimatology (ds : DataSet) : Except (String × DataSet) DataSet :=
  match timeBoundVarName ds with
  | .error e => .error (e, ds)
  | .ok tbName =>
    match List.lookup tbName ds.boundVars with
    | none => .error ("KeyError: " ++ tbName, ds)
    | some tb =>
      match List.lookup "units" ds.timeAttrs, List.lookup "calendar" ds.timeAttrs with
      | some units, some cal =>
        if units == supportedUnits && cal == "noleap" then
          let dates := (boundMidpoints tb).map num2dateNoleap
          let ds1 : DataSet := { ds with time := dates.map TimeVal.date }
          if dates.length % 12 != 0 then .error (divErrMsg, ds1)
          else
            let months := dates.map CalDate.month
            .ok { time := (distinctMonths months).map (fun m => TimeVal.num (m : ℚ))
                  timeAttrs := [("long_name", "Month"), ("units", "month")]
                  boundVars := ds1.boundVars.map (fun p => (p.1, groupMonthMeanPair months p.2))
                  dataVars := ds1.dataVars.map (fun p => (p.1, groupMonthMean months p.2))
                  gridVars := ds1.gridVars }
        else .error ("calendar or units not supported by this embedding", ds)
      | _, _ => .error ("KeyError: units or calendar", ds)

/-! ## Accessors used to state claims -/

/-- Length of the result's time axis, `none` on error. -/
def climoTimeLen (r : Except (String × DataSet) DataSet) : Option Nat :=
  match r with
  | .ok out => some out.time.length
  | .error _ => none

/-- Values of a named data variable of the result, `none` on error. -/
def climoVarVals (r : Except (String × DataSet) DataSet) (name : String) : Option (List ℚ) :=
  match r with
  | .ok out => List.lookup name out.dataVars
  | .error _ => none

/-- The error message, `none` on success. -/
def climoErrMsg (r : Except (String × DataSet) DataSet) : Option String :=
  match r with
  | .error e => some e.1
  | .ok _ => none

/-- The dataset state carried by an error, `none` on success. -/
def climoErrState (r : Except (String × DataSet) DataSet) : Option DataSet :=
  match r with
  | .error e => some e.2
  | .ok _ => none

/-! ## The unit-test dataset (src/test-climo.py)

Two repeated 12-month `noleap` cycles: `time_bound` rows are the month start
and end day counts, `var_to_average` is 0 on the first cycle and 1 on the
second. -/

def monthStartDays : List ℚ := [0, 31, 59, 90, 120, 151, 181, 212, 243, 273, 304, 334]

def monthEndDays : List ℚ := [31, 59, 90, 120, 151, 181, 212, 243, 273, 304, 334, 365]

def unitTestStart : List ℚ := monthStartDays ++ monthStartDays.map (fun d => d + 365)

def unitTestEnd : List ℚ := monthEndDays ++ monthEndDays.map (fun d => d + 365)

/-- The dataset built by `UnitTestDataSource.create_data_set`. -/
def unitTestDS : DataSet :=
  { time := unitTestEnd.map TimeVal.num
    timeAttrs := [("units", supportedUnits), ("calendar", "noleap"), ("bounds", "time_bound")]
    boundVars := [("time_bound", unitTestStart.zip unitTestEnd)]
    dataVars := [("var_to_average", List.replicate 12 0 ++ List.replicate 12 1)]
    gridVars := [("lat", [0]), ("lon", [0]), ("d2", [0, 1])] }

/-! ## Claim C1 -/

/-- C1: for the raw unit-test dataset — a 24-step time axis holding two
repeated 12-month cycles of `var_to_average`, 0 on the first 12 steps and 1
on the last 12 — `compute_mon_climatology` yields a dataset with a 12-step
time axis in which every value of `var_to_average` equals `1/2` (hence lies
within `1e-10` of `0.5`). -/
theorem unit_test_monthly_climatology :
    climoTimeLen (computeMonClimatology unitTestDS) = some 12 ∧
    climoVarVals (computeMonClimatology unitTestDS) "var_to_average"
      = some (List.replicate 12 ((1 : ℚ) / 2)) ∧
    List.Forall (fun v => |v - (1 : ℚ) / 2| < 1 / 10000000000)
      ((climoVarVals (computeMonClimatology unitTestDS) "var_to_average").getD []) := by
  refine ⟨by with_unfolding_all decide, by with_unfolding_all decide,
    by with_unfolding_all decide⟩

/-! ## Claims C2 and C10 -/

/-- A dataset on which `compute_mon_climatology` reaches its divisibility
check: the time-bounds companion resolves to an existing variable, the time
units and calendar are the ones the embedding decodes, the bounds variable
has one row per time step, and the time axis is nonempty. -/
def wellFormedForClimo (ds : DataSet) : Bool :=
  match timeBoundVarName ds with
  | .error _ => false
  | .ok tbName =>
    match List.lookup tbName ds.boundVars with
    | none => false
    | some tb =>
      (List.lookup "units" ds.timeAttrs == some supportedUnits) &&
      (List.lookup "calendar" ds.timeAttrs == some "noleap") &&
      (tb.length == ds.time.length) && !(ds.time.length == 0)

/-- C2: on a well-formed raw dataset with a time-bounds companion,
`compute_mon_climatology` raises the divisibility error exactly when the
number of time steps is not a multiple of 12, and that error names the time
axis not divisible by 12. -/
theorem compute_mon_climatology_divisibility (ds : DataSet)
    (h : wellFormedForClimo ds = true) :
    (ds.time.length % 12 ≠ 0 →
      climoErrMsg (computeMonClimatology ds) = some divErrMsg) ∧
    (ds.time.length % 12 = 0 →
      climoErrMsg (computeMonClimatology ds) = none) := by
  unfold wellFormedForClimo at h
  unfold computeMonClimatology
  cases htb : timeBoundVarName ds with
  | error e => simp [htb] at h
  | ok tbName =>
    cases hlk : List.lookup tbName ds.boundVars with
    | none => simp [htb, hlk] at h
    | some tb =>
      simp only [htb, hlk, Bool.and_eq_true, beq_iff_eq, Bool.not_eq_true',
        beq_eq_false_iff_ne] at h
      obtain ⟨⟨⟨hu, hc⟩, hlen⟩, _⟩ := h
      simp only [htb, hlk, hu, hc]
      have hmaplen : ((boundMidpoints tb).map num2dateNoleap).length = ds.time.length := by
        simp [boundMidpoints, hlen]
      simp only [beq_self_eq_true, Bool.and_self, if_true, hmaplen]
      constructor
      · intro hne
        simp [climoErrMsg, hne]
      · intro heq
        simp [climoErrMsg, heq]

/-- A 13-step dataset used to witness the divisibility error. -/
def tb13 : List (ℚ × ℚ) :=
  (List.range 13).map (fun i => ((i : ℚ) * 30, ((i : ℚ) + 1) * 30))

def ds13 : DataSet :=
  { time := (List.range 13).map (fun i => TimeVal.num (i : ℚ))
    timeAttrs := [("units", supportedUnits), ("calendar", "noleap"), ("bounds", "time_bound")]
    boundVars := [("time_bound", tb13)]
    dataVars := [("var_to_average", List.replicate 13 1)]
    gridVars := [("lat", [0])] }

/-- Witness for C2: the 13-step dataset is well formed and raises the
divisibility error. -/
theorem compute_mon_climatology_divisibility_witness :
    wellFormedForClimo ds13 = true ∧
    climoErrMsg (computeMonClimatology ds13) = some divErrMsg :=
  ⟨by with_unfolding_all decide,
   (compute_mon_climatology_divisibility ds13 (by with_unfolding_all decide)).1
     (by with_unfolding_all decide)⟩

/-- Whether all values of the `time` coordinate are still raw numbers. -/
def isRawTime (ds : DataSet) : Bool :=
  ds.time.all (fun t => match t with | .num _ => true | .date _ => false)

/-- C10: when `compute_mon_climatology` raises the divisibility error, the
dataset carried at the raise already has its `time` values overwritten by the
decoded calendar dates of the time-bound midpoints, so a raw handle is not
left in its pre-call state. -/
theorem divisibility_error_mutates_time (ds : DataSet) (tbName : String)
    (tb : List (ℚ × ℚ))
    (h1 : timeBoundVarName ds = .ok tbName)
    (h2 : List.lookup tbName ds.boundVars = some tb)
    (h3 : List.lookup "units" ds.timeAttrs = some supportedUnits)
    (h4 : List.lookup "calendar" ds.timeAttrs = some "noleap")
    (h5 : tb.length = ds.time.length)
    (h6 : ds.time.length % 12 ≠ 0)
    (h7 : isRawTime ds = true) :
    computeMonClimatology ds =
      .error (divErrMsg,
        { ds with time := ((boundMidpoints tb).map num2dateNoleap).map TimeVal.date }) ∧
    { ds with time := ((boundMidpoints tb).map num2dateNoleap).map TimeVal.date } ≠ ds := by
  constructor
  · unfold computeMonClimatology
    simp only [h1, h2, h3, h4]
    have hmaplen : ((boundMidpoints tb).map num2dateNoleap).length = ds.time.length := by
      simp [boundMidpoints, h5]
    simp only [beq_self_eq_true, Bool.and_self, if_true, hmaplen]
    simp [h6]
  · intro heq
    have htime := congrArg DataSet.time heq
    simp only at htime
    have hpos : ds.time ≠ [] := by
      intro hnil
      rw [hnil] at h6
      simp at h6
    cases hds : ds.time with
    | nil => exact hpos hds
    | cons t ts =>
      cases htb2 : tb with
      | nil =>
        rw [htb2, hds] at h5
        simp at h5
      | cons p ps =>
        rw [htb2, hds] at htime
        simp only [boundMidpoints, List.map_cons, List.cons.injEq] at htime
        obtain ⟨hhead, _⟩ := htime
        rw [isRawTime, hds] at h7
        simp only [List.all_cons, Bool.and_eq_true] at h7
        cases t with
        | num q => exact absurd hhead (by simp)
        | date d => simp at h7

/-- Witness for C10: the 13-step raw dataset errors with its time coordinate
already replaced by decoded dates, a state different from the input. -/
theorem divisibility_error_mutates_time_witness :
    computeMonClimatology ds13 =
      .error (divErrMsg,
        { ds13 with time := ((boundMidpoints tb13).map num2dateNoleap).map TimeVal.date }) ∧
    { ds13 with time := ((boundMidpoints tb13).map num2dateNoleap).map TimeVal.date } ≠ ds13 :=
  divisibility_error_mutates_time ds13 "time_bound" tb13
    (by with_unfolding_all rfl) (by with_unfolding_all rfl)
    (by with_unfolding_all rfl) (by with_unfolding_all rfl)
    (by with_unfolding_all rfl) (by with_unfolding_all decide)
    (by with_unfolding_all rfl)

/-! ## Data-source handles (src/marbl_diags/data_source_classes.py)

A handle wraps the opened dataset, the generic-to-specific variable-name
mapping, the climatology tags `_is_mon_climo` / `_is_ann_climo`, and the
class that opened it. -/

inductive SourceKind where
  | cesm
  | cachedClimo
  | woa
deriving DecidableEq

structure DataSource where
  kind : SourceKind
  isMonClimo : Bool
  isAnnClimo : Bool
  ds : DataSet
  varDict : List (String × String)
deriving DecidableEq

/-- `compute_mon_climatology` as dispatched on the marbl_diags data-source
classes: `CachedClimoData` and `WOAData` override it with `pass`;
`CESMData` returns immediately when the handle is already tagged as a
monthly or annual climatology and otherwise runs the generic computation
(`GenericDataSource.compute_mon_climatology`, whose algorithm is the one
embedded in `computeMonClimatology`).  Note that the CESM branch does not
update the tags after computing. -/
def sourceComputeMonClimatology (src : DataSource) : Except (String × DataSet) DataSource :=
  match src.kind with
  | .cachedClimo => .ok src
  | .woa => .ok src
  | .cesm =>
    if src.isMonClimo || src.isAnnClimo then .ok src
    else
      match computeMonClimatology src.ds with
      | .ok ds2 => .ok { src with ds := ds2 }
      | .error e => .error e

/-- One step of `AnalysisElement._operate_on_datasets` for a single data
source (src/marbl_diags/analysis_class.py): run `compute_mon_climatology`,
then write the result to the cache iff caching is enabled and the handle is
not tagged as a climatology.  The boolean of the result records whether a
cache write occurred. -/
def operateOnDataSource (cacheData : Bool) (src : DataSource) :
    Except (String × DataSet) (DataSource × Bool) :=
  match sourceComputeMonClimatology src with
  | .error e => .error e
  | .ok src2 => .ok (src2, cacheData && !(src2.isMonClimo || src2.isAnnClimo))

/-! ## Claim C3 -/

/-- C3: for every handle already tagged as monthly or annual climatology —
which covers cached-climatology and WOA reanalysis handles — invoking the
monthly-climatology computation returns the handle unchanged (same dataset,
variable mapping and tags), performs no recomputation, and triggers no cache
write regardless of the `cache_data` setting. -/
theorem tagged_climatology_noop (src : DataSource) (cacheData : Bool)
    (h : (src.isMonClimo || src.isAnnClimo) = true) :
    sourceComputeMonClimatology src = .ok src ∧
    operateOnDataSource cacheData src = .ok (src, false) := by
  have hc : sourceComputeMonClimatology src = .ok src := by
    unfold sourceComputeMonClimatology
    cases src.kind <;> simp [h]
  refine ⟨hc, ?_⟩
  unfold operateOnDataSource
  simp [hc, h]

/-- A concrete cached-climatology handle: tagged monthly, as
`CachedClimoData._get_dataset` produces. -/
def cachedHandle : DataSource :=
  { kind := .cachedClimo
    isMonClimo := true
    isAnnClimo := false
    ds := unitTestDS
    varDict := [("nitrate", "NO3")] }

/-- Witness for C3 at a cached-climatology handle. -/
theorem tagged_climatology_noop_witness :
    (cachedHandle.isMonClimo || cachedHandle.isAnnClimo) = true ∧
    sourceComputeMonClimatology cachedHandle = .ok cachedHandle ∧
    operateOnDataSource true cachedHandle = .ok (cachedHandle, false) :=
  ⟨by with_unfolding_all rfl, tagged_climatology_noop cachedHandle true (by with_unfolding_all rfl)⟩

/-! ## Association-list lemmas shared by the configuration and cache claims -/

theorem lookup_map_keyed {β γ : Type} (f : String → β → γ) (k : String)
    (l : List (String × β)) :
    List.lookup k (l.map (fun p => (p.1, f p.1 p.2))) = (List.lookup k l).map (f k) := by
  induction l with
  | nil => rfl
  | cons p t ih =>
    obtain ⟨k2, v⟩ := p
    cases hbeq : (k == k2) with
    | true =>
      have hk : k = k2 := eq_of_beq hbeq
      subst hk
      simp [List.lookup]
    | false => simp [List.lookup, hbeq, ih]

theorem lookup_append_some {β : Type} (k : String) (l1 l2 : List (String × β)) (v : β)
    (h : List.lookup k l1 = some v) :
    List.lookup k (l1 ++ l2) = some v := by
  induction l1 with
  | nil => simp [List.lookup] at h
  | cons p t ih =>
    obtain ⟨k2, w⟩ := p
    cases hbeq : (k == k2) with
    | true => simpa [List.lookup, hbeq] using h
    | false =>
      simp only [List.cons_append, List.lookup, hbeq] at h ⊢
      exact ih h

theorem lookup_append_none {β : Type} (k : String) (l1 l2 : List (String × β))
    (h : List.lookup k l1 = none) :
    List.lookup k (l1 ++ l2) = List.lookup k l2 := by
  induction l1 with
  | nil => rfl
  | cons p t ih =>
    obtain ⟨k2, w⟩ := p
    cases hbeq : (k == k2) with
    | true => simp [List.lookup, hbeq] at h
    | false =>
      simp only [List.cons_append, List.lookup, hbeq] at h ⊢
      exact ih h

theorem lookup_filter_none {β : Type} (k : String) (p : String × β → Bool)
    (l : List (String × β)) (h : List.lookup k l = none) :
    List.lookup k (l.filter p) = none := by
  induction l with
  | nil => rfl
  | cons q t ih =>
    obtain ⟨k2, w⟩ := q
    cases hbeq : (k == k2) with
    | true => simp [List.lookup, hbeq] at h
    | false =>
      simp only [List.lookup, hbeq] at h
      by_cases hp : p (k2, w)
      · simp only [List.filter, hp, List.lookup, hbeq]
        exact ih h
      · simp only [List.filter, hp]
        exact ih h

/-! ## Configuration values and the three-tier resolver
(src/marbl_diags/generic_classes.py, `GenericAnalysisElement.__init__`) -/

/-- A heterogeneous configuration value (Python `None`, booleans, strings,
numbers, lists). -/
inductive ConfigVal where
  | null
  | bool (b : Bool)
  | str (s : String)
  | int (n : Int)
  | intList (l : List Int)
  | strList (l : List String)
deriving DecidableEq

/-- Python truthiness of a configuration value. -/
def pyTruthy : ConfigVal → Bool
  | .null => false
  | .bool b => b
  | .str s => !(s == "")
  | .int n => !(n == 0)
  | .intList l => !l.isEmpty
  | .strList l => !l.isEmpty

/-- The built-in `config_defaults` of `GenericAnalysisElement.__init__`. -/
def configDefaults : List (String × ConfigVal) :=
  [("dirout", .null), ("reference", .null), ("plot_bias", .bool false),
   ("cache_data", .bool false), ("stats_in_title", .bool false),
   ("plot_format", .str "png"), ("keep_figs", .bool false),
   ("grid", .null), ("depth_list", .intList [0])]

/-- The three-tier per-key lookup of `GenericAnalysisElement.__init__`: the
per-analysis override value if present, else the category/global value, else
the built-in default. -/
def resolveKey (overrideTier categoryTier : List (String × ConfigVal))
    (k : String) (d : ConfigVal) : ConfigVal :=
  match List.lookup k overrideTier with
  | some v => v
  | none =>
    match List.lookup k categoryTier with
    | some v => v
    | none => d

/-- The `cache_dir` entry of the resolved configuration: it has no built-in
default and is copied from the override or the category tier only when
`cache_data` resolved true. -/
def cacheDirEntries (overrideTier categoryTier : List (String × ConfigVal)) :
    List (String × ConfigVal) :=
  if pyTruthy (resolveKey overrideTier categoryTier "cache_data" (.bool false)) then
    match List.lookup "cache_dir" overrideTier with
    | some v => [("cache_dir", v)]
    | none =>
      match List.lookup "cache_dir" categoryTier with
      | some v => [("cache_dir", v)]
      | none => []
  else []

/-- The resolved `_config_dict` built by `GenericAnalysisElement.__init__`:
one entry per recognized key, resolved through the three tiers, plus the
conditional `cache_dir` entry. -/
def resolveConfigDict (overrideTier categoryTier : List (String × ConfigVal)) :
    List (String × ConfigVal) :=
  (configDefaults.map (fun p => (p.1, resolveKey overrideTier categoryTier p.1 p.2)))
    ++ cacheDirEntries overrideTier categoryTier

/-! ## Claim C4 -/

/-- C4: for every key recognized by the resolver (a key of the built-in
defaults): a value in the per-analysis override tier wins over everything;
absent there, a value in the category/global tier wins; absent from both,
the built-in default is used. -/
theorem config_precedence (overrideTier categoryTier : List (String × ConfigVal))
    (k : String) (d : ConfigVal)
    (hk : List.lookup k configDefaults = some d) :
    (∀ v, List.lookup k overrideTier = some v →
      List.lookup k (resolveConfigDict overrideTier categoryTier) = some v) ∧
    (List.lookup k overrideTier = none →
      ∀ v, List.lookup k categoryTier = some v →
        List.lookup k (resolveConfigDict overrideTier categoryTier) = some v) ∧
    (List.lookup k overrideTier = none →
      List.lookup k categoryTier = none →
      List.lookup k (resolveConfigDict overrideTier categoryTier) = some d) := by
  have hbase : List.lookup k
      (configDefaults.map (fun p => (p.1, resolveKey overrideTier categoryTier p.1 p.2)))
      = some (resolveKey overrideTier categoryTier k d) := by
    rw [lookup_map_keyed, hk]
    rfl
  have hfull : List.lookup k (resolveConfigDict overrideTier categoryTier)
      = some (resolveKey overrideTier categoryTier k d) :=
    lookup_append_some _ _ _ _ hbase
  refine ⟨?_, ?_, ?_⟩
  · intro v hv
    rw [hfull]
    simp [resolveKey, hv]
  · intro hov v hv
    rw [hfull]
    simp [resolveKey, hov, hv]
  · intro hov hcat
    rw [hfull]
    simp [resolveKey, hov, hcat]

/-- Witness for C4: `plot_format` overridden per analysis to `pdf` wins over
a category value `svg` and the built-in default `png`. -/
theorem config_precedence_witness :
    List.lookup "plot_format" configDefaults = some (ConfigVal.str "png") ∧
    List.lookup "plot_format"
      (resolveConfigDict [("plot_format", ConfigVal.str "pdf")]
        [("plot_format", ConfigVal.str "svg")]) = some (ConfigVal.str "pdf") :=
  ⟨by with_unfolding_all rfl,
   (config_precedence [("plot_format", ConfigVal.str "pdf")]
      [("plot_format", ConfigVal.str "svg")] "plot_format" (ConfigVal.str "png")
      (by with_unfolding_all rfl)).1
     (ConfigVal.str "pdf") (by with_unfolding_all rfl)⟩

/-! ## Category-level settings resolution
(src/marbl_diags/analysis_class.py, `AnalysisCategory.__init__`) -/

/-- The `category_settings_defaults` for the `3d_ann_climo_maps_on_levels`
category. -/
def categorySettingsDefaults : List (String × ConfigVal) :=
  [("dirout", .null), ("cache_data", .bool false), ("plot_format", .str "png"),
   ("keep_figs", .bool false),
   ("variables", .strList ["nitrate", "phosphate", "silicate", "oxygen",
                           "dic", "alkalinity", "iron"]),
   ("levels", .intList ((List.range 9).map (fun i => (i : Int) * 500))),
   ("reference", .null), ("plot_diff_from_reference", .bool false),
   ("stats_in_title", .bool true), ("grid", .null),
   ("climo_time_periods", .strList ["ANN"])]

/-- Dictionary update that only adds keys not already present, mirroring
steps (c) and (d) of `AnalysisCategory.__init__`. -/
def addAbsent (base addend : List (String × ConfigVal)) : List (String × ConfigVal) :=
  base ++ addend.filter (fun p => (List.lookup p.1 base).isNone)

/-- The merged `category_settings`: the per-category `_settings` block,
then keys of the global configuration not in it, then the built-in category
defaults. -/
def categorySettings (settingsTier globalTier : List (String × ConfigVal)) :
    List (String × ConfigVal) :=
  addAbsent (addAbsent settingsTier globalTier) categorySettingsDefaults

def missingCacheDirMsg : String :=
  "Must provide cache_dir if setting cache_data to True"

def unrecognizedMsg (k : String) : String := "Unrecognized setting: " ++ k

/-- Steps (2b)–(3b) of `AnalysisCategory.__init__`: merge the three tiers,
then — if the resolved `cache_data` is truthy — require a `cache_dir` key
(its absence raises), and finally reject any key that is not a recognized
category setting. -/
def categoryResolveSettings (settingsTier globalTier : List (String × ConfigVal)) :
    Except String (List (String × ConfigVal)) :=
  let s := categorySettings settingsTier globalTier
  match List.lookup "cache_data" s with
  | none => .error "KeyError: cache_data"
  | some cd =>
    if pyTruthy cd then
      if (List.lookup "cache_dir" s).isNone then .error missingCacheDirMsg
      else
        let expected := categorySettingsDefaults.map Prod.fst ++ ["cache_dir"]
        match s.find? (fun p => !(expected.contains p.1)) with
        | some p => .error (unrecognizedMsg p.1)
        | none => .ok s
    else
      let expected := categorySettingsDefaults.map Prod.fst
      match s.find? (fun p => !(expected.contains p.1)) with
      | some p => .error (unrecognizedMsg p.1)
      | none => .ok s

/-! ## Claim C7 -/

/-- C7: whenever the resolved `cache_data` is truthy and no tier supplies a
`cache_dir` key, category settings resolution fails with the missing-key
configuration error and produces no resolved configuration. -/
theorem missing_cache_dir_error (settingsTier globalTier : List (String × ConfigVal))
    (cd : ConfigVal)
    (hcd : List.lookup "cache_data" (categorySettings settingsTier globalTier) = some cd)
    (htruthy : pyTruthy cd = true)
    (h1 : List.lookup "cache_dir" settingsTier = none)
    (h2 : List.lookup "cache_dir" globalTier = none) :
    categoryResolveSettings settingsTier globalTier = .error missingCacheDirMsg := by
  have hdef : List.lookup "cache_dir" categorySettingsDefaults = none := by
    with_unfolding_all rfl
  have hmerged : List.lookup "cache_dir" (categorySettings settingsTier globalTier) = none := by
    unfold categorySettings addAbsent
    rw [lookup_append_none _ _ _
      (by rw [lookup_append_none _ _ _ h1]; exact lookup_filter_none _ _ _ h2)]
    exact lookup_filter_none _ _ _ hdef
  unfold categoryResolveSettings
  simp only [hcd, htruthy, hmerged, if_true, Option.isNone_none]

/-- Witness for C7: `cache_data` set true in the category `_settings` block,
no `cache_dir` anywhere. -/
theorem missing_cache_dir_error_witness :
    List.lookup "cache_data" (categorySettings [("cache_data", ConfigVal.bool true)] [])
      = some (ConfigVal.bool true) ∧
    categoryResolveSettings [("cache_data", ConfigVal.bool true)] []
      = .error missingCacheDirMsg :=
  ⟨by with_unfolding_all rfl,
   missing_cache_dir_error [("cache_data", ConfigVal.bool true)] [] (ConfigVal.bool true)
     (by with_unfolding_all rfl) (by with_unfolding_all rfl)
     (by with_unfolding_all rfl) (by with_unfolding_all rfl)⟩

/-! ## Cache paths (src/marbl_diags/analysis_elements_class.py,
`AnalysisElements._open_datasets`) -/

/-- The data-payload path:
`{cache_dir}/{config_key}.{data_source}.{climo_str}.{ext}`. -/
def cachedLocation (cacheDir configKey dataSource climoStr ext : String) : String :=
  cacheDir ++ "/" ++ configKey ++ "." ++ dataSource ++ "." ++ climoStr ++ "." ++ ext

/-- The variable-mapping payload path:
`{cache_dir}/{config_key}.{data_source}.{climo_str}.json`. -/
def cachedVarDictLocation (cacheDir configKey dataSource climoStr : String) : String :=
  cacheDir ++ "/" ++ configKey ++ "." ++ dataSource ++ "." ++ climoStr ++ ".json"

/-! ## Claim C6 -/

/-- C6 (amended): the cache key is a deterministic function of its four
components; with the analysis-unit name, climatology state and format fixed,
two keys are equal iff the source names are equal — in particular two
distinct sources of the same unit and state never collide — and the metadata
path shares the key-derived prefix of the data path.  (Distinct 4-tuples can
still collide when a component contains the separator, see the
counterexample.) -/
theorem cache_key_determinism_and_source_injectivity
    (dir u s1 s2 c e : String) :
    (s1 = s2 → cachedLocation dir u s1 c e = cachedLocation dir u s2 c e) ∧
    (cachedLocation dir u s1 c e = cachedLocation dir u s2 c e ↔ s1 = s2) ∧
    cachedVarDictLocation dir u s1 c = cachedLocation dir u s1 c "json" := by
  refine ⟨fun h => by rw [h], ⟨?_, fun h => by rw [h]⟩, ?_⟩
  case refine_2 =>
    unfold cachedVarDictLocation cachedLocation
    simp only [String.append_assoc]
    rfl
  intro h
  have hd := congrArg String.data h
  simp only [cachedLocation, String.data_append, List.append_assoc] at hd
  have h1 := List.append_cancel_left hd
  have h2 := List.append_cancel_left h1
  have h3 := List.append_cancel_left h2
  have h4 := List.append_cancel_left h3
  have h5 := List.append_cancel_right h4
  exact String.ext_iff.mpr h5

/-- Witness for C6: distinct source names of the same unit and state yield
distinct keys. -/
theorem cache_key_witness :
    (cachedLocation "cache" "el" "woa" "climo" "zarr"
        = cachedLocation "cache" "el" "jra" "climo" "zarr" ↔ ("woa" : String) = "jra") ∧
    cachedLocation "cache" "el" "woa" "climo" "zarr" = "cache/el.woa.climo.zarr" :=
  ⟨(cache_key_determinism_and_source_injectivity "cache" "el" "woa" "jra" "climo" "zarr").2.1,
   by with_unfolding_all rfl⟩

/-- Counterexample to C6 as stated: two different component 4-tuples whose
keys coincide, because the separator also occurs inside a component. -/
theorem cache_key_collision_counterexample :
    cachedLocation "cache" "a.b" "c" "climo" "zarr"
      = cachedLocation "cache" "a" "b.c" "climo" "zarr" ∧
    (("a.b" : String) == "a") = false ∧ (("c" : String) == "b.c") = false := by
  refine ⟨by with_unfolding_all rfl, by with_unfolding_all rfl, by with_unfolding_all rfl⟩

/-! ## Opening data sources against the cache
(src/marbl_diags/analysis_elements_class.py and data_source_classes.py) -/

/-- The on-disk cache: zarr data payloads and json variable-mapping
payloads, keyed by path. -/
structure CacheStoreState where
  dataStore : List (String × DataSet)
  dictStore : List (String × List (String × String))
deriving DecidableEq

/-- `CachedClimoData`: `_set_var_dict` requires the variable-mapping payload
to exist — a missing file raises `FileNotFoundError` — then `_get_dataset`
unconditionally tags the handle as a monthly climatology and opens the zarr
payload. -/
def cachedClimoOpen (st : CacheStoreState) (dataPath dictPath : String) :
    Except String DataSource :=
  match List.lookup dictPath st.dictStore with
  | none => .error ("Can not find " ++ dictPath)
  | some vd =>
    match List.lookup dataPath st.dataStore with
    | some d =>
      .ok { kind := .cachedClimo, isMonClimo := true, isAnnClimo := false,
            ds := d, varDict := vd }
    | none => .error ("zarr open failed: " ++ dataPath)

/-- A non-cached source: its `source` tag and the handle content that its
format-specific opener yields (the file input itself is abstracted as the
dataset and tags the opener would produce). -/
structure SourceSpec where
  source : String
  payload : DataSet
  varDict : List (String × String)
  isMonClimo : Bool
  isAnnClimo : Bool
deriving DecidableEq

/-- The non-cached branch of `AnalysisElements._open_datasets`: dispatch on
the `source` tag (`cesm`, `woa2005`, `woa2013`); unknown tags raise. -/
def freshOpen (spec : SourceSpec) : Except String DataSource :=
  if spec.source == "cesm" then
    .ok { kind := .cesm, isMonClimo := spec.isMonClimo, isAnnClimo := spec.isAnnClimo,
          ds := spec.payload, varDict := spec.varDict }
  else if spec.source == "woa2005" || spec.source == "woa2013" then
    .ok { kind := .woa, isMonClimo := spec.isMonClimo, isAnnClimo := spec.isAnnClimo,
          ds := spec.payload, varDict := spec.varDict }
  else .error ("Unknown source " ++ spec.source)

/-- One iteration of `AnalysisElements._open_datasets`: build the two cache
paths from the key components; take the cached branch iff caching is enabled
and the data payload exists, else open through the normal branch. -/
def openDataSource (st : CacheStoreState) (cacheData : Bool)
    (cacheDir configKey dataSourceName climoStr : String) (spec : SourceSpec) :
    Except String DataSource :=
  let dataPath := cachedLocation cacheDir configKey dataSourceName climoStr "zarr"
  let dictPath := cachedVarDictLocation cacheDir configKey dataSourceName climoStr
  if cacheData && (List.lookup dataPath st.dataStore).isSome then
    cachedClimoOpen st dataPath dictPath
  else freshOpen spec

/-! ## Claim C5 -/

/-- C5 (amended): when the data payload exists on disk but the
variable-mapping metadata payload does not, the open is not treated as a
cache miss — the cached branch is entered and fails with the
file-not-found error naming the missing metadata payload. -/
theorem partial_cache_record_raises (st : CacheStoreState)
    (cacheDir configKey srcName climoStr : String) (spec : SourceSpec) (d : DataSet)
    (h1 : List.lookup (cachedLocation cacheDir configKey srcName climoStr "zarr")
      st.dataStore = some d)
    (h2 : List.lookup (cachedVarDictLocation cacheDir configKey srcName climoStr)
      st.dictStore = none) :
    openDataSource st true cacheDir configKey srcName climoStr spec
      = .error ("Can not find " ++ cachedVarDictLocation cacheDir configKey srcName climoStr) := by
  unfold openDataSource cachedClimoOpen
  simp [h1, h2]

/-- A cache holding only the data payload of one record. -/
def partialStore : CacheStoreState :=
  { dataStore := [(cachedLocation "cache" "el" "src" "climo" "zarr", unitTestDS)]
    dictStore := [] }

/-- An empty cache (the genuine full-miss state). -/
def emptyStore : CacheStoreState :=
  { dataStore := [], dictStore := [] }

def cesmSpec : SourceSpec :=
  { source := "cesm", payload := unitTestDS, varDict := [("nitrate", "NO3")]
    isMonClimo := false, isAnnClimo := false }

/-- Counterexample to C5 as stated: with the data payload present and the
metadata payload deleted, the open raises instead of behaving like the full
cache miss (which opens the source freshly and succeeds). -/
theorem partial_cache_record_counterexample :
    openDataSource partialStore true "cache" "el" "src" "climo" cesmSpec
      = .error "Can not find cache/el.src.climo.json" ∧
    openDataSource emptyStore true "cache" "el" "src" "climo" cesmSpec
      = .ok { kind := .cesm, isMonClimo := false, isAnnClimo := false,
              ds := unitTestDS, varDict := [("nitrate", "NO3")] } := by
  refine ⟨by with_unfolding_all rfl, by with_unfolding_all rfl⟩

/-- Witness for the amended C5 at the concrete partial record. -/
theorem partial_cache_record_raises_witness :
    openDataSource partialStore true "cache" "el" "src" "climo" cesmSpec
      = .error ("Can not find " ++ cachedVarDictLocation "cache" "el" "src" "climo") :=
  partial_cache_record_raises partialStore "cache" "el" "src" "climo" cesmSpec unitTestDS
    (by with_unfolding_all rfl) (by with_unfolding_all rfl)

/-! ## Claim C8 -/

/-- The climatology tags `(is_mon_climo, is_ann_climo)` of an opened handle. -/
def handleTags : Except String DataSource → Option (Bool × Bool)
  | .ok h => some (h.isMonClimo, h.isAnnClimo)
  | .error _ => none

/-- C8 (amended): every successfully opened cached artifact carries the tags
`(is_mon_climo, is_ann_climo) = (true, false)` — the tags are fixed by
`CachedClimoData._get_dataset` and do not depend on the climatology-state
component stored in the record's key. -/
theorem cached_artifact_tags_fixed (st : CacheStoreState) (dataPath dictPath : String)
    (vd : List (String × String)) (d : DataSet)
    (h1 : List.lookup dictPath st.dictStore = some vd)
    (h2 : List.lookup dataPath st.dataStore = some d) :
    handleTags (cachedClimoOpen st dataPath dictPath) = some (true, false) := by
  unfold cachedClimoOpen
  simp [h1, h2, handleTags]

/-- A complete cache record stored under the `ann_climo` state component. -/
def annStore : CacheStoreState :=
  { dataStore := [(cachedLocation "cache" "el" "src" "ann_climo" "zarr", unitTestDS)]
    dictStore := [(cachedVarDictLocation "cache" "el" "src" "ann_climo", [("nitrate", "NO3")])] }

/-- Counterexample to C8 as stated: an artifact cached under the non-monthly
state `ann_climo` opens as a handle tagged monthly climatology. -/
theorem cached_artifact_tags_counterexample :
    handleTags (cachedClimoOpen annStore
        (cachedLocation "cache" "el" "src" "ann_climo" "zarr")
        (cachedVarDictLocation "cache" "el" "src" "ann_climo")) = some (true, false) ∧
    (("ann_climo" : String) == "mon_climo") = false := by
  refine ⟨by with_unfolding_all rfl, by with_unfolding_all rfl⟩

/-- Witness for the amended C8 at the concrete `ann_climo` record. -/
theorem cached_artifact_tags_fixed_witness :
    handleTags (cachedClimoOpen annStore
        (cachedLocation "cache" "el" "src" "ann_climo" "zarr")
        (cachedVarDictLocation "cache" "el" "src" "ann_climo")) = some (true, false) :=
  cached_artifact_tags_fixed annStore
    (cachedLocation "cache" "el" "src" "ann_climo" "zarr")
    (cachedVarDictLocation "cache" "el" "src" "ann_climo")
    [("nitrate", "NO3")] unitTestDS
    (by with_unfolding_all rfl) (by with_unfolding_all rfl)

/-! ## Reference identification in `plot_state`
(src/analysis_elements_class.py, `AnalysisElements.plot_state`) -/

def dupRefMsg : String := "More that one reference dataset specified"

/-- Python truthiness of the `ref_cname` accumulator (`None` and the empty
string are falsy). -/
def pyTruthyStr : Option String → Bool
  | Option.none => false
  | some s => !(s == "")

/-- The reference-identification loop: walk the collections in order; at a
source with role `reference`, raise if `ref_cname` is already truthy, else
record the name. -/
def findRef : Option String → List (String × String) → Except String (Option String)
  | refC, [] => .ok refC
  | refC, (cname, role) :: rest =>
    if role == "reference" then
      if pyTruthyStr refC then .error dupRefMsg
      else findRef (some cname) rest
    else findRef refC rest

def findReference (cols : List (String × String)) : Except String (Option String) :=
  findRef Option.none cols

/-- Number of sources with role `reference`. -/
def countReferences (cols : List (String × String)) : Nat :=
  (cols.filter (fun p => p.2 == "reference")).length

/-- `AnalysisElements.plot_state` up to rendering: the grid lookup, then the
reference scan; the plots (one per variable × depth) are produced only after
both succeed, so an error means nothing is rendered. -/
def plotState (grid : String) (cols : List (String × String))
    (variableList : List String) (depthList : List Int) : Except String (List String) :=
  if grid = "POP_gx1v7" then
    match findReference cols with
    | .error e => .error e
    | .ok _ =>
      .ok (variableList.flatMap (fun v =>
        depthList.map (fun z => "state-map-" ++ v ++ "." ++ toString z ++ "m.png")))
  else .error "unknown grid"

/-! ## Claim C9 -/

theorem findRef_error_iff (cols : List (String × String)) :
    cols.all (fun p => !(p.2 == "reference") || !(p.1 == "")) = true →
    ∀ refC : Option String,
      (findRef refC cols = .error dupRefMsg ↔
        (if pyTruthyStr refC then 1 else 2) ≤ countReferences cols) := by
  induction cols with
  | nil =>
    intro _ refC
    constructor
    · intro h
      simp [findRef] at h
    · intro h
      simp only [countReferences, List.filter_nil, List.length_nil] at h
      split at h <;> omega
  | cons p t ih =>
    intro hnames refC
    obtain ⟨cname, role⟩ := p
    simp only [List.all_cons, Bool.and_eq_true] at hnames
    obtain ⟨hhead, htail⟩ := hnames
    by_cases hrole : role = "reference"
    · subst hrole
      have hcname : (cname == "") = false := by simpa using hhead
      have hcount : countReferences ((cname, "reference") :: t) = countReferences t + 1 := by
        simp [countReferences]
      by_cases htruthy : pyTruthyStr refC = true
      · rw [show findRef refC ((cname, "reference") :: t) = .error dupRefMsg from by
          simp [findRef, htruthy]]
        rw [hcount, htruthy]
        simp only [if_true, true_iff]
        omega
      · have hfalse : pyTruthyStr refC = false := by
          simpa using htruthy
        have hstep : findRef refC ((cname, "reference") :: t) = findRef (some cname) t := by
          simp [findRef, hfalse]
        have hsome : pyTruthyStr (some cname) = true := by
          simp [pyTruthyStr, hcname]
        rw [hstep, ih htail (some cname), hsome, hcount, hfalse]
        simp only [Bool.false_eq_true, if_false, if_true]
        omega
    · have hstep : findRef refC ((cname, role) :: t) = findRef refC t := by
        simp [findRef, hrole]
      have hcount : countReferences ((cname, role) :: t) = countReferences t := by
        simp [countReferences, hrole]
      rw [hstep, hcount]
      exact ih htail refC

/-- C9 (amended): provided every reference-role source has a nonempty name,
`plot_state` raises the duplicate-reference error — before any plot is
rendered — exactly when two or more sources carry role `reference`; with at
most one reference no such error is raised.  (A first reference named by the
empty string escapes the truthiness check, see the counterexample.) -/
theorem duplicate_reference_error (cols : List (String × String))
    (variableList : List String) (depthList : List Int)
    (hnames : cols.all (fun p => !(p.2 == "reference") || !(p.1 == "")) = true) :
    (plotState "POP_gx1v7" cols variableList depthList = .error dupRefMsg ↔
      2 ≤ countReferences cols) := by
  have h := findRef_error_iff cols hnames Option.none
  simp only [pyTruthyStr, Bool.false_eq_true, if_false] at h
  unfold plotState findReference
  rw [if_pos rfl]
  cases hfr : findRef Option.none cols with
  | error e =>
    rw [hfr] at h
    simpa using h
  | ok r =>
    rw [hfr] at h
    simpa using h

def twoRefCols : List (String × String) := [("a", "reference"), ("b", "reference")]

/-- Witness for the amended C9: two named references raise the
duplicate-reference error. -/
theorem duplicate_reference_error_witness :
    plotState "POP_gx1v7" twoRefCols ["nitrate"] [0] = .error dupRefMsg :=
  (duplicate_reference_error twoRefCols ["nitrate"] [0] (by with_unfolding_all rfl)).mpr
    (by with_unfolding_all rfl)

def emptyNameCols : List (String × String) := [("", "reference"), ("b", "reference")]

/-- Counterexample to C9 as stated: a collection with two reference-role
sources whose first reference is named by the empty string is rendered
without any error — `if ref_cname:` treats the recorded empty name as
falsy. -/
theorem duplicate_reference_counterexample :
    countReferences emptyNameCols = 2 ∧
    plotState "POP_gx1v7" emptyNameCols ["nitrate"] [0]
      = .ok ["state-map-nitrate.0m.png"] := by
  refine ⟨by with_unfolding_all rfl, by with_unfolding_all rfl⟩

end MarblDiags
